import Mathlib

/-!
Shallow embedding of the nanoclaw core (device runtime state machine,
event bus, execution queue, scheduler, sandbox command builders) together
with proofs about the behaviour its specification describes.

Machine integers are modelled as `Nat` with explicit saturation helpers
where the source uses `saturating_add`; `Nat` subtraction already matches
`saturating_sub`.  `HashMap`/`HashSet`/`BTreeMap` are modelled as
association lists with the operations the source uses.  The wall clock
(`now_ms()` in the source) is threaded as an explicit `now` parameter.
-/

namespace Microclaw

/-- Saturating add on u32 values, as in Rust `saturating_add`. -/
def sat32 (n : Nat) : Nat := min n (2 ^ 32 - 1)

/-- Saturating add on u64 values, as in Rust `saturating_add`. -/
def sat64 (n : Nat) : Nat := min n (2 ^ 64 - 1)

/-- Association-list lookup, modelling `HashMap::get`. -/
def alistFind? {β : Type} (k : String) : List (String × β) → Option β
  | [] => none
  | p :: rest => if p.1 = k then some p.2 else alistFind? k rest

/-- Association-list insert, modelling `HashMap::insert` (replace if the key
is already present, otherwise add an entry). -/
def alistInsert {β : Type} (k : String) (v : β) (l : List (String × β)) :
    List (String × β) :=
  if (alistFind? k l).isSome then
    l.map (fun p => if p.1 = k then (k, v) else p)
  else
    (k, v) :: l

/-- Association-list removal, modelling `HashMap::remove`. -/
def alistErase {β : Type} (k : String) : List (String × β) → List (String × β)
  | [] => []
  | p :: rest => if p.1 = k then rest else p :: alistErase k rest

/-! ## Protocol model (crate `microclaw-protocol`)

`MessageId` is a newtype over `String` in the source; it is modelled
directly as `String`.  The `Envelope` structure is taken from
`src/crates/microclaw-protocol/src/lib.rs`.  The remaining protocol
vocabulary (`MessageKind`, `DeviceAction`, `DeviceStatus`,
`TouchEventPayload`, payload accessors) belongs to this repository but is
not present under `src/`; those definitions are modelled from the spec as
flagged below. -/

/-- Envelope, from `microclaw-protocol/src/lib.rs`. -/
structure Envelope where
  v : Nat
  seq : Nat
  source : String
  device_id : String
  session_id : String
  message_id : String
deriving DecidableEq, Repr

/-- Modelled from the spec: the closed `MessageKind` vocabulary of §6
(`hello_ack, heartbeat, status_snapshot, status_delta, command,
host_command, command_ack, command_result, error, touch_event`), with
unknown tokens degrading to an `unknown` variant (spec §9); the enum
itself is repository code missing from `src/`. -/
inductive MessageKind where
  | helloAck
  | heartbeat
  | statusSnapshot
  | statusDelta
  | command
  | hostCommand
  | commandAck
  | commandResult
  | error
  | touchEvent
  | unknown
deriving DecidableEq, Repr

/-- Modelled from the spec: the closed `DeviceAction` enumeration of §3/§6;
the enum itself is repository code missing from `src/`. -/
inductive DeviceAction where
  | retry
  | restart
  | reconnect
  | wifiReconnect
  | statusGet
  | openConversation
  | unpair
  | syncNow
  | mute
  | endSession
  | otaStart
  | diagnosticsSnapshot
  | unknown
deriving DecidableEq, Repr

/-- Modelled from the spec: `DeviceStatus` fields as used by the runtime and
its tests (`wifi_ok`, `host_reachable`, `mode`, `scene`, `ota_state`); the
struct itself is repository code missing from `src/`. -/
structure DeviceStatus where
  wifi_ok : Bool
  host_reachable : Bool
  mode : Option String
  scene : Option String
  ota_state : Option String
deriving DecidableEq, Repr

/-- Modelled from the spec: `DeviceStatus::default()`. -/
def defaultStatus : DeviceStatus :=
  { wifi_ok := false, host_reachable := false, mode := none, scene := none,
    ota_state := none }

/-- Modelled from the spec: the JSON payload of a transport frame, reduced
to the shapes the runtime inspects — a status object, a device-command
object `\x7baction, args\x7d` (args reduced to the string map the runtime reads),
or anything else (unparsed). -/
inductive Payload where
  | status (s : DeviceStatus)
  | deviceCommand (action : DeviceAction) (args : List (String × String))
  | raw (tag : Nat)
deriving DecidableEq, Repr

/-- Modelled from the spec: `TouchPhase` tokens of §6 plus the `Unknown`
variant the runtime matches on; repository code missing from `src/`. -/
inductive TouchPhase where
  | down
  | move
  | up
  | cancel
  | unknown
deriving DecidableEq, Repr

/-- Modelled from the spec: `TouchEvent` payload of §6. -/
structure TouchEventPayload where
  phase : TouchPhase
  x : Nat
  y : Nat
  pointer_id : Nat
  pressure : Option Nat
  raw_timestamp_ms : Option Nat
deriving DecidableEq, Repr

/-- `TransportMessage`, fields per spec §3 and the construction sites in
`runtime.rs` and the device tests. -/
structure TransportMessage where
  envelope : Envelope
  kind : MessageKind
  corr_id : Option String
  ttl_ms : Option Nat
  issued_at : Option Nat
  signature : Option String
  nonce : Option String
  payload : Payload
deriving DecidableEq, Repr

/-- Modelled from the spec: `TransportMessage::as_status_snapshot` — parse
the payload into a `DeviceStatus`; succeeds exactly on status payloads. -/
def TransportMessage.as_status_snapshot (msg : TransportMessage) :
    Option DeviceStatus :=
  match msg.payload with
  | .status s => some s
  | _ => none

/-- Modelled from the spec: a parsed device command. -/
structure DeviceCommand where
  action : DeviceAction
  args : List (String × String)
deriving DecidableEq, Repr

/-- Modelled from the spec: `TransportMessage::as_device_command` — parse
the payload into an action plus args; fails on non-command payloads. -/
def TransportMessage.as_device_command (msg : TransportMessage) :
    Option DeviceCommand :=
  match msg.payload with
  | .deviceCommand a args => some { action := a, args := args }
  | _ => none

/-! ## Display geometry (`microclaw-device/src/display.rs`) -/

structure DisplayPoint where
  x : Nat
  y : Nat
deriving DecidableEq, Repr

def DISPLAY_WIDTH : Nat := 360
def DISPLAY_HEIGHT : Nat := 360
def SAFE_CENTER_X : Nat := DISPLAY_WIDTH / 2
def SAFE_CENTER_Y : Nat := DISPLAY_HEIGHT / 2
def SAFE_RADIUS : Nat := 160

/-- `in_safe_circle`: the i32 arithmetic cannot overflow at these ranges,
so it is modelled on `Int`. -/
def in_safe_circle (x y : Nat) : Bool :=
  let dx : Int := (x : Int) - (SAFE_CENTER_X : Int)
  let dy : Int := (y : Int) - (SAFE_CENTER_Y : Int)
  dx * dx + dy * dy ≤ (SAFE_RADIUS : Int) * (SAFE_RADIUS : Int)

/-- `clamp_and_validate_touch` from `display.rs`. -/
def clamp_and_validate_touch (raw_x raw_y : Nat) : Option DisplayPoint :=
  let x := min raw_x (DISPLAY_WIDTH - 1)
  let y := min raw_y (DISPLAY_HEIGHT - 1)
  if in_safe_circle x y then some { x := x, y := y } else none

/-! ## Scenes and hit testing (`microclaw-device/src/ui.rs`) -/

inductive Scene where
  | boot
  | connectSetup
  | paired
  | conversation
  | agentThinking
  | agentStreaming
  | agentTaskProgress
  | settings
  | notificationList
  | error
  | offline
deriving DecidableEq, Repr

structure HitTarget where
  x : Nat
  y : Nat
  w : Nat
  h : Nat
  action : DeviceAction
deriving DecidableEq, Repr

/-- `HitTarget::hit`; u16 `saturating_add` modelled via `sat64`-style
clamping at the u16 bound. -/
def HitTarget.hit (t : HitTarget) (p : DisplayPoint) : Bool :=
  t.x ≤ p.x && p.x ≤ min (t.x + t.w) (2 ^ 16 - 1) &&
  t.y ≤ p.y && p.y ≤ min (t.y + t.h) (2 ^ 16 - 1)

/-- `targets_for_scene` from `ui.rs`, literal table. -/
def targets_for_scene : Scene → List HitTarget
  | .boot =>
      [{ x := 126, y := 292, w := 108, h := 46, action := .retry }]
  | .connectSetup =>
      [{ x := 40, y := 280, w := 56, h := 56, action := .wifiReconnect },
       { x := 110, y := 280, w := 140, h := 56, action := .reconnect },
       { x := 264, y := 280, w := 56, h := 56, action := .statusGet }]
  | .paired =>
      [{ x := 60, y := 130, w := 240, h := 100, action := .openConversation },
       { x := 34, y := 250, w := 110, h := 60, action := .unpair },
       { x := 216, y := 250, w := 110, h := 60, action := .syncNow },
       { x := 122, y := 320, w := 116, h := 28, action := .wifiReconnect }]
  | .conversation =>
      [{ x := 52, y := 280, w := 124, h := 54, action := .mute },
       { x := 184, y := 280, w := 124, h := 54, action := .endSession },
       { x := 108, y := 320, w := 144, h := 30, action := .openConversation }]
  | .agentThinking => []
  | .agentStreaming => []
  | .agentTaskProgress => []
  | .settings =>
      [{ x := 150, y := 320, w := 60, h := 30, action := .statusGet }]
  | .notificationList => []
  | .error =>
      [{ x := 86, y := 250, w := 188, h := 64, action := .restart },
       { x := 80, y := 320, w := 200, h := 40, action := .reconnect }]
  | .offline =>
      [{ x := 86, y := 250, w := 188, h := 64, action := .restart },
       { x := 80, y := 320, w := 200, h := 40, action := .reconnect }]

/-- `Scene::action_for_touch`: first containment match in declaration
order. -/
def Scene.action_for_touch (scene : Scene) (point : DisplayPoint) :
    Option DeviceAction :=
  ((targets_for_scene scene).find? (fun t => t.hit point)).map
    (fun t => t.action)

/-! ## Device runtime (`microclaw-device/src/runtime.rs`)

The interior-mutability `scene_cache : Cell<Scene>` of the source is a
pure cache of the scene computed from `mode` (spec §9 design note); it is
observationally irrelevant and omitted from the state. -/

def DEFAULT_SAFETY_RETRIES : Nat := 5

inductive RuntimeMode where
  | booting
  | connected
  | offline
  | error (reason : String)
  | safeMode (reason : String)
deriving DecidableEq, Repr

inductive RuntimeAction where
  | none
  | emitAck (corr_id : String) (status : String)
  | emitCommand (action : DeviceAction)
  | raiseUiState (message : String)
deriving DecidableEq, Repr

structure InFlightCommand where
  corr_id : String
  action : DeviceAction
  enqueued_at_ms : Nat
deriving DecidableEq, Repr

structure RuntimeState where
  mode : RuntimeMode
  last_seq : Nat
  seen_message_ids : List (String × Nat)
  in_flight : List (String × InFlightCommand)
  diagnostics : List String
  last_status : DeviceStatus
  offline_since_ms : Option Nat
  last_heartbeat_ms : Option Nat
  host_allowlist : List String
  safety_fail_count : Nat
  safety_fail_limit : Nat
  ota_in_progress : Bool
  ota_target_version : Option String
  ota_error_reason : Option String
deriving DecidableEq, Repr

def RuntimeState.new : RuntimeState :=
  { mode := .booting
    last_seq := 0
    seen_message_ids := []
    in_flight := []
    diagnostics := []
    last_status := defaultStatus
    offline_since_ms := none
    last_heartbeat_ms := none
    host_allowlist := []
    safety_fail_count := 0
    safety_fail_limit := DEFAULT_SAFETY_RETRIES
    ota_in_progress := false
    ota_target_version := none
    ota_error_reason := none }

def RuntimeState.with_host_allowlist (hosts : List String) : RuntimeState :=
  { RuntimeState.new with host_allowlist := hosts }

/-- `RuntimeState::scene` (without the cache write, see above). -/
def RuntimeState.scene (s : RuntimeState) : Scene :=
  match s.mode with
  | .booting => .boot
  | .connected => .paired
  | .offline => .offline
  | .error _ => .error
  | .safeMode _ => .settings

def RuntimeState.is_host_allowed (s : RuntimeState) (source : String) : Bool :=
  if s.host_allowlist.isEmpty then true
  else s.host_allowlist.any (fun allowed => allowed = source || allowed = ("*"))

def RuntimeState.is_duplicate_or_stale (s : RuntimeState) (seq : Nat)
    (message_id : String) : Bool :=
  if seq ≤ s.last_seq then true
  else (alistFind? message_id s.seen_message_ids).isSome

def RuntimeState.track_message_id (s : RuntimeState) (seq : Nat)
    (message_id : String) : RuntimeState :=
  let m := if s.seen_message_ids.length > 512 then [] else s.seen_message_ids
  { s with seen_message_ids := alistInsert message_id seq m }

/-- `note_heartbeat`: `issued_at.unwrap_or_else(now_ms)`. -/
def RuntimeState.note_heartbeat (s : RuntimeState) (issued_at : Option Nat)
    (now : Nat) : RuntimeState :=
  { s with last_heartbeat_ms := some (issued_at.getD now) }

/-- `trim_diagnostics`: `while len > 16 \x7b pop_front \x7d` (structural
recursion on the deque so the kernel can evaluate it). -/
def trim_diagnostics : List String → List String
  | [] => []
  | x :: rest =>
    if (x :: rest).length > 16 then trim_diagnostics rest else x :: rest

def RuntimeState.push_diagnostic (s : RuntimeState) (entry : String) :
    RuntimeState :=
  { s with diagnostics := trim_diagnostics (s.diagnostics ++ [entry]) }

def RuntimeState.mark_offline_with_reason (s : RuntimeState) (reason : String)
    (now : Nat) : RuntimeState :=
  if s.mode = .offline then s
  else
    ({ s with mode := .offline, offline_since_ms := some now }).push_diagnostic
      reason

def RuntimeState.mark_error_with_reason (s : RuntimeState) (reason : String) :
    RuntimeState :=
  { s with mode := .error reason }

def RuntimeState.mark_offline_if_stale (s : RuntimeState) (now : Nat)
    (heartbeat_timeout_ms : Nat) : RuntimeState × Bool :=
  if s.mode = .offline then (s, false)
  else
    let last_seen := s.last_heartbeat_ms.getD now
    if now - last_seen > heartbeat_timeout_ms then
      (s.mark_offline_with_reason ("heartbeat_stale") now, true)
    else (s, false)

def RuntimeState.safety_lockdown_check (s : RuntimeState) :
    RuntimeState × Bool :=
  match s.mode with
  | .safeMode _ => (s, false)
  | _ =>
    if s.safety_fail_count ≥ s.safety_fail_limit then
      ({ s with
          mode := .safeMode ("safety_retries_exhausted_entering_safe_mode") },
       true)
    else (s, false)

def RuntimeState.mark_ota_complete (s : RuntimeState) (success : Bool)
    (reason : Option String) : RuntimeState × RuntimeAction :=
  let s := { s with ota_in_progress := false, ota_error_reason := reason }
  if success then
    ({ s with last_status := { s.last_status with ota_state := some ("active") } },
     .raiseUiState ("ota_complete"))
  else
    ({ s with last_status := { s.last_status with ota_state := some ("failed") } },
     .raiseUiState ("ota_failed"))

def RuntimeState.apply_status_snapshot (s : RuntimeState)
    (status : DeviceStatus) (now : Nat) : RuntimeState :=
  let s := { s with last_status := status }
  if status.wifi_ok = false then
    s.mark_offline_with_reason ("status_wifi_not_ok") now
  else
    match status.mode with
    | some m =>
      match m with
      | "boot" => { s with mode := .booting }
      | "connected" => { s with mode := .connected }
      | "paired" => { s with mode := .connected }
      | "ready" => { s with mode := .connected }
      | "offline" => { s with mode := .offline }
      | "safe_mode" => { s with mode := .safeMode ("host_reported_safe_mode") }
      | "error" => { s with mode := .error ("host_reported_error") }
      | _ => s
    | none => s

/-- The `Command`/`HostCommand` arm of the dispatch block. -/
def RuntimeState.dispatch_command (s : RuntimeState) (msg : TransportMessage) :
    RuntimeState × RuntimeAction :=
  match msg.as_device_command with
  | some command =>
    match command.action with
    | .reconnect =>
      ({ s with mode := .offline }, .raiseUiState ("command_reconnect"))
    | .retry =>
      ({ s with mode := .booting }, .raiseUiState ("command_retry"))
    | .restart =>
      ({ s with mode := .booting }, .raiseUiState ("command_restart"))
    | .otaStart =>
      ({ s with
          ota_target_version := alistFind? ("version") command.args,
          ota_error_reason := none,
          ota_in_progress := true },
       .raiseUiState ("command_ota_start"))
    | .diagnosticsSnapshot => (s, .raiseUiState ("command_diagnostics"))
    | _ => (s, .raiseUiState ("command_received"))
  | none => (s, .raiseUiState ("command_parse_error"))

/-- The `match &msg.kind` dispatch block of `apply_transport_message`,
split out as a helper so frame lemmas can be proved per kind. -/
def RuntimeState.dispatch_kind (s : RuntimeState) (msg : TransportMessage)
    (now : Nat) : RuntimeState × RuntimeAction :=
  match msg.kind with
  | .helloAck =>
    ({ s with
        mode := .connected,
        offline_since_ms := none,
        safety_fail_count := 0 },
     .raiseUiState ("connected"))
  | .statusDelta =>
    let s :=
      match msg.as_status_snapshot with
      | some status => s.apply_status_snapshot status now
      | none => s
    ({ s with offline_since_ms := none }, .raiseUiState ("status_updated"))
  | .statusSnapshot =>
    let s :=
      match msg.as_status_snapshot with
      | some status => s.apply_status_snapshot status now
      | none => s
    ({ s with offline_since_ms := none }, .raiseUiState ("status_updated"))
  | .command => s.dispatch_command msg
  | .hostCommand => s.dispatch_command msg
  | .commandAck =>
    match msg.corr_id with
    | some cid =>
      ({ s with in_flight := alistErase cid s.in_flight },
       .emitAck cid ("command_ack"))
    | none => (s, RuntimeAction.none)
  | .commandResult =>
    let s :=
      match msg.corr_id with
      | some cid => { s with in_flight := alistErase cid s.in_flight }
      | none => s
    (s, .raiseUiState ("command_result"))
  | .error => (s, .raiseUiState ("host_error"))
  | .heartbeat => ({ s with mode := .connected }, RuntimeAction.none)
  | _ => (s, RuntimeAction.none)

/-- `apply_transport_message`, gates then accept then dispatch. -/
def RuntimeState.apply_transport_message (s : RuntimeState)
    (msg : TransportMessage) (now : Nat) : RuntimeState × RuntimeAction :=
  if ¬ s.is_host_allowed msg.envelope.source then
    ({ s with safety_fail_count := sat32 (s.safety_fail_count + 1) },
     .raiseUiState ("command_denied_unauthorized_source"))
  else if s.is_duplicate_or_stale msg.envelope.seq msg.envelope.message_id then
    (s, .raiseUiState ("replay_or_duplicate_rejected"))
  else
    let s := { s with last_seq := msg.envelope.seq }
    let s := s.track_message_id msg.envelope.seq msg.envelope.message_id
    let s := s.note_heartbeat msg.issued_at now
    s.dispatch_kind msg now

/-- `process_touch`; the source mutates only the omitted scene cache, so
the state component is returned unchanged. -/
def RuntimeState.process_touch (s : RuntimeState) (point : DisplayPoint) :
    RuntimeState × RuntimeAction :=
  match s.scene.action_for_touch point with
  | some action => (s, .emitCommand action)
  | none => (s, RuntimeAction.none)

def RuntimeState.apply_touch_event (s : RuntimeState)
    (event : TouchEventPayload) : RuntimeState × RuntimeAction :=
  match event.phase with
  | .up => (s, RuntimeAction.none)
  | .cancel => (s, RuntimeAction.none)
  | _ =>
    match clamp_and_validate_touch event.x event.y with
    | some point => s.process_touch point
    | none => (s, RuntimeAction.none)

/-- `emit_command`; `now_ms()` threaded as `now`. -/
def RuntimeState.emit_command (s : RuntimeState) (action : DeviceAction)
    (now : Nat) : RuntimeState × TransportMessage :=
  let seq := sat64 (s.last_seq + 1)
  let s := { s with last_seq := seq }
  let message_id := "cmd-" ++ toString seq
  let corr_id := "corr-" ++ toString seq
  let envelope : Envelope :=
    { v := 1, seq := seq, source := "device", device_id := "microclaw-device",
      session_id := "boot", message_id := message_id }
  let entry : InFlightCommand :=
    { corr_id := corr_id, action := action, enqueued_at_ms := now }
  let s := { s with in_flight := alistInsert corr_id entry s.in_flight }
  (s,
   { envelope := envelope, kind := .command, corr_id := some corr_id,
     ttl_ms := none, issued_at := some now, signature := none, nonce := none,
     payload := .deviceCommand action [] })

/-- States reachable from `RuntimeState::new()` (or the allowlist
constructor) by any sequence of the runtime's public operations. -/
inductive Reachable : RuntimeState → Prop where
  | new : Reachable RuntimeState.new
  | with_host_allowlist (hosts : List String) :
      Reachable (RuntimeState.with_host_allowlist hosts)
  | transport {s : RuntimeState} (msg : TransportMessage) (now : Nat) :
      Reachable s → Reachable (s.apply_transport_message msg now).1
  | touch {s : RuntimeState} (ev : TouchEventPayload) :
      Reachable s → Reachable (s.apply_touch_event ev).1
  | process {s : RuntimeState} (p : DisplayPoint) :
      Reachable s → Reachable (s.process_touch p).1
  | emit {s : RuntimeState} (a : DeviceAction) (now : Nat) :
      Reachable s → Reachable (s.emit_command a now).1
  | offline_stale {s : RuntimeState} (now t : Nat) :
      Reachable s → Reachable (s.mark_offline_if_stale now t).1
  | lockdown {s : RuntimeState} :
      Reachable s → Reachable s.safety_lockdown_check.1
  | ota {s : RuntimeState} (ok : Bool) (r : Option String) :
      Reachable s → Reachable (s.mark_ota_complete ok r).1
  | offline_reason {s : RuntimeState} (r : String) (now : Nat) :
      Reachable s → Reachable (s.mark_offline_with_reason r now)
  | error_reason {s : RuntimeState} (r : String) :
      Reachable s → Reachable (s.mark_error_with_reason r)

/-! ## Event bus (`microclaw-bus/src/lib.rs`)

The sqlite table `bus_events` is modelled as an in-memory list of rows;
`id` is the AUTOINCREMENT primary key (strictly increasing with insertion
order, starting at 1).  The serialised payload column stores the envelope
that was inserted (after the seq rewrite), so the row keeps it directly. -/

structure BusRow where
  id : Nat
  seq : Nat
  device_id : String
  session_id : String
  message_id : String
  payload : Envelope
deriving DecidableEq, Repr

structure Bus where
  rows : List BusRow
  last_seq : Nat
  next_id : Nat
deriving DecidableEq, Repr

/-- `Bus::open_in_memory` on a fresh database. -/
def Bus.openEmpty : Bus := { rows := [], last_seq := 0, next_id := 1 }

/-- `Bus::publish`. -/
def Bus.publish (b : Bus) (env : Envelope) : Bus × Bool :=
  let rowExists := b.rows.any
    (fun r => r.device_id = env.device_id && r.message_id = env.message_id)
  if rowExists then (b, false)
  else
    let env :=
      if env.seq ≤ b.last_seq then { env with seq := sat64 (b.last_seq + 1) }
      else env
    let last_seq := max b.last_seq env.seq
    let row : BusRow :=
      { id := b.next_id, seq := env.seq, device_id := env.device_id,
        session_id := env.session_id, message_id := env.message_id,
        payload := env }
    ({ rows := b.rows ++ [row], last_seq := last_seq,
       next_id := b.next_id + 1 },
     true)

/-- The sqlite ordering `ORDER BY seq ASC, id ASC` as a relation on rows. -/
def rowLe (a b : BusRow) : Prop :=
  a.seq < b.seq ∨ (a.seq = b.seq ∧ a.id ≤ b.id)

instance : DecidableRel rowLe := fun a b => by unfold rowLe; infer_instance

instance : IsTotal BusRow rowLe :=
  ⟨by intro a b; unfold rowLe; omega⟩

instance : IsTrans BusRow rowLe :=
  ⟨by intro a b c; unfold rowLe; omega⟩

/-- The row sequence produced by
`SELECT ... WHERE seq > ? ORDER BY seq ASC, id ASC`. -/
def Bus.replay_rows (b : Bus) (after_seq : Nat) : List BusRow :=
  List.insertionSort rowLe (b.rows.filter (fun r => after_seq < r.seq))

/-- `Bus::replay_from_seq`: the envelopes deserialised from the selected
rows, in query order. -/
def Bus.replay_from_seq (b : Bus) (after_seq : Nat) : List Envelope :=
  (b.replay_rows after_seq).map (fun r => r.payload)

/-! ## Execution queue (`microclaw-queue/src/lib.rs`)

`BTreeMap<String, VecDeque<_>>` is modelled as a list of
(group, queue) pairs kept sorted by group key, so that plain list
iteration matches `BTreeMap` iteration order.  `HashSet<String>` is
modelled as a duplicate-free list. -/

structure RetryPolicy where
  max_attempts : Nat
  backoff_ms : Nat
deriving DecidableEq, Repr

structure QueuedItem (α : Type) where
  id : String
  group : String
  payload : α
  attempts : Nat
  ready_at_ms : Nat
deriving DecidableEq, Repr

/-- `QueuedItem::new`. -/
def QueuedItem.new {α : Type} (id group : String) (payload : α) :
    QueuedItem α :=
  { id := id, group := group, payload := payload, attempts := 0,
    ready_at_ms := 0 }

structure ExecutionQueue (α : Type) where
  per_group : List (String × List (QueuedItem α))
  inflight_groups : List String
  inflight_limit : Nat
  inflight : Nat
  retry : RetryPolicy
deriving DecidableEq, Repr

/-- `ExecutionQueue::new`. -/
def ExecutionQueue.mk' {α : Type} (inflight_limit : Nat)
    (retry : RetryPolicy) : ExecutionQueue α :=
  { per_group := [], inflight_groups := [], inflight_limit := inflight_limit,
    inflight := 0, retry := retry }

/-- Lexicographic order on char lists (total order used for the
`BTreeMap` key order; agrees with the byte order Rust uses on the ASCII
keys that occur). -/
def charListLt : List Char → List Char → Bool
  | [], [] => false
  | [], _ :: _ => true
  | _ :: _, [] => false
  | a :: as, b :: bs =>
    if a < b then true else if b < a then false else charListLt as bs

/-- `BTreeMap` key order on strings. -/
def strLt (a b : String) : Bool := charListLt a.data b.data

/-- `per_group.entry(group).or_default().push_back(item)` on the sorted
pair list. -/
def btreePush {α : Type} (group : String) (item : QueuedItem α) :
    List (String × List (QueuedItem α)) → List (String × List (QueuedItem α))
  | [] => [(group, [item])]
  | (g, q) :: rest =>
    if group = g then (g, q ++ [item]) :: rest
    else if strLt group g then (group, [item]) :: (g, q) :: rest
    else (g, q) :: btreePush group item rest

/-- `HashSet::insert`. -/
def setInsert (g : String) (l : List String) : List String :=
  if g ∈ l then l else g :: l

def ExecutionQueue.enqueue {α : Type} (q : ExecutionQueue α)
    (group id : String) (payload : α) : ExecutionQueue α :=
  let item := QueuedItem.new id group payload
  { q with per_group := btreePush group item q.per_group }

/-- The `for (group, queue) in per_group.iter_mut()` loop body of
`next_ready`: find the first non-in-flight group whose head is ready, pop
that head. -/
def nextReadyLoop {α : Type} (inflight_groups : List String) (now : Nat) :
    List (String × List (QueuedItem α)) →
      Option (QueuedItem α × List (String × List (QueuedItem α)))
  | [] => none
  | (g, q) :: rest =>
    if g ∈ inflight_groups then
      (nextReadyLoop inflight_groups now rest).map
        (fun r => (r.1, (g, q) :: r.2))
    else
      match q with
      | [] =>
        (nextReadyLoop inflight_groups now rest).map
          (fun r => (r.1, (g, []) :: r.2))
      | item :: qrest =>
        if item.ready_at_ms ≤ now then some (item, (g, qrest) :: rest)
        else
          (nextReadyLoop inflight_groups now rest).map
            (fun r => (r.1, (g, item :: qrest) :: r.2))

/-- `ExecutionQueue::next_ready`. -/
def ExecutionQueue.next_ready {α : Type} (q : ExecutionQueue α) (now : Nat) :
    ExecutionQueue α × Option (QueuedItem α) :=
  if q.inflight ≥ q.inflight_limit then (q, none)
  else
    match nextReadyLoop q.inflight_groups now q.per_group with
    | none => (q, none)
    | some (item, pg) =>
      let item := { item with attempts := item.attempts + 1 }
      ({ q with
          per_group := pg,
          inflight := q.inflight + 1,
          inflight_groups := setInsert item.group q.inflight_groups },
       some item)

/-- `ExecutionQueue::complete`. -/
def ExecutionQueue.complete {α : Type} (q : ExecutionQueue α)
    (item : QueuedItem α) (ok : Bool) (now : Nat) : ExecutionQueue α :=
  let q := { q with
      inflight := q.inflight - 1,
      inflight_groups := q.inflight_groups.erase item.group }
  if ok || item.attempts ≥ q.retry.max_attempts then q
  else
    let item := { item with ready_at_ms := now + q.retry.backoff_ms }
    { q with per_group := btreePush item.group item q.per_group }

/-! ## Sandbox command builders (`microclaw-sandbox/src/lib.rs`) -/

structure Mount where
  source : String
  target : String
  read_only : Bool
deriving DecidableEq, Repr

def Mount.to_apple_arg (m : Mount) : String :=
  let arg := "type=bind,src=" ++ m.source ++ ",dst=" ++ m.target
  if m.read_only then arg ++ ",readonly" else arg

def Mount.to_docker_arg (m : Mount) : String :=
  let suffix := if m.read_only then ":ro" else ""
  m.source ++ ":" ++ m.target ++ suffix

structure RunSpec where
  image : String
  command : List String
  mounts : List Mount
  env : List (String × String)
  egress_hosts : List String
deriving DecidableEq, Repr

def RunSpec.network_disabled (spec : RunSpec) : Bool :=
  spec.egress_hosts.isEmpty

/-- `DockerRunner::build_command`. -/
def DockerRunner.build_command (spec : RunSpec) : List String :=
  ["docker", "run", "--rm"] ++
    (if spec.network_disabled then ["--network=none"] else []) ++
    spec.mounts.flatMap (fun m => ["-v", m.to_docker_arg]) ++
    spec.env.flatMap (fun kv => ["-e", kv.1 ++ "=" ++ kv.2]) ++
    [spec.image] ++ spec.command

/-- `AppleContainerRunner::build_command`. -/
def AppleContainerRunner.build_command (spec : RunSpec) : List String :=
  ["container", "run", "--rm"] ++
    (if spec.network_disabled then ["--network=none"] else []) ++
    spec.mounts.flatMap (fun m => ["--mount", m.to_apple_arg]) ++
    spec.env.flatMap (fun kv => ["--env", kv.1 ++ "=" ++ kv.2]) ++
    [spec.image] ++ spec.command

/-! ## Scheduler (`microclaw-scheduler/src/lib.rs`)

Timestamps (`DateTime<Utc>`) are modelled as `Int` milliseconds since the
epoch.  The external `cron` crate is abstracted by two function
parameters: `cronParseErr value` is `some e` when `Schedule::from_str`
fails with message `e`, and `cronAfterNext value now` is the first firing
strictly after `now` (if any). -/

inductive ScheduleType where
  | once
  | interval
  | cron
deriving DecidableEq, Repr

inductive SchedulerError where
  | invalidScheduleType (s : String)
  | invalidScheduleValue (s : String)
  | cron (s : String)
deriving DecidableEq, Repr

/-- `compute_next_run`. -/
def compute_next_run (cronParseErr : String → Option String)
    (cronAfterNext : String → Int → Option Int)
    (schedule_type : ScheduleType) (schedule_value : String) (now : Int) :
    Except SchedulerError Int :=
  match schedule_type with
  | .interval =>
    match schedule_value.toInt? with
    | some interval_ms => .ok (now + interval_ms)
    | none => .error (.invalidScheduleValue schedule_value)
  | .cron =>
    match cronParseErr schedule_value with
    | some e => .error (.cron e)
    | none =>
      match cronAfterNext schedule_value now with
      | some next => .ok next
      | none => .error (.cron ("no upcoming cron times"))
  | .once =>
    .error (.invalidScheduleValue ("once schedules do not compute next run"))

/-! ## Concrete data used by witnesses and counterexamples -/

def busEnv1 : Envelope :=
  { v := 1, seq := 1, source := "host", device_id := "dev",
    session_id := "sess", message_id := "m1" }

def busWithRow : Bus := (Bus.openEmpty.publish busEnv1).1

def c7q : ExecutionQueue String :=
  ((((ExecutionQueue.mk' 2 { max_attempts := 2, backoff_ms := 1000 }).enqueue
      ("a") ("t1") ("p1")).enqueue ("a") ("t2") ("p2")).enqueue
      ("b") ("t3") ("p3"))

def c7i1 : QueuedItem String :=
  { id := "t1", group := "a", payload := "p1", attempts := 1,
    ready_at_ms := 0 }

def c7i2 : QueuedItem String :=
  { id := "t2", group := "a", payload := "p2", attempts := 1,
    ready_at_ms := 0 }

def c8Spec : RunSpec :=
  { image := "task-image", command := ["run-task"], mounts := [],
    env := [("--network", "none")], egress_hosts := ["api.example.com"] }

def c8CleanSpec : RunSpec :=
  { image := "task-image", command := ["run-task"],
    mounts := [{ source := "/srv/data", target := "/data", read_only := true }],
    env := [("MODE", "fast")], egress_hosts := [] }

/-! ## A trace of fresh accepted frames (used for C1 and C4)

`mid i` is the i-th message id (a string of `i` copies of `'a'`, so
distinct indices give distinct ids); `mkMsg i` is an `Error`-kind frame
with seq `i` and id `mid i` from the default-allowed source; `runUpTo n`
applies the first `n` such frames to a fresh runtime. -/

def mid (i : Nat) : String := ⟨List.replicate i 'a'⟩

def mkMsg (i : Nat) : TransportMessage :=
  { envelope :=
      { v := 1, seq := i, source := "host", device_id := "dev",
        session_id := "sess", message_id := mid i }
    kind := .error
    corr_id := none
    ttl_ms := none
    issued_at := some 0
    signature := none
    nonce := none
    payload := .raw 0 }

def runUpTo : Nat → RuntimeState
  | 0 => RuntimeState.new
  | n + 1 => ((runUpTo n).apply_transport_message (mkMsg (n + 1)) 0).1

def seenUpTo : Nat → List (String × Nat)
  | 0 => []
  | n + 1 => (mid (n + 1), n + 1) :: seenUpTo n

def stateAfter (n : Nat) : RuntimeState :=
  { RuntimeState.new with
      last_seq := n
      seen_message_ids := seenUpTo n
      last_heartbeat_ms := some 0 }

/-- A frame whose message id repeats the (accepted) first frame's id but
whose seq is fresh. -/
def replayMsg : TransportMessage :=
  { envelope :=
      { v := 1, seq := 515, source := "host", device_id := "dev",
        session_id := "sess", message_id := mid 1 }
    kind := .error
    corr_id := none
    ttl_ms := none
    issued_at := some 0
    signature := none
    nonce := none
    payload := .raw 0 }

/-- The accept phase of `apply_transport_message` (steps 3 of §4.3). -/
def acceptState (s : RuntimeState) (msg : TransportMessage) (now : Nat) :
    RuntimeState :=
  ((({ s with last_seq := msg.envelope.seq }).track_message_id
      msg.envelope.seq msg.envelope.message_id).note_heartbeat
      msg.issued_at now)

def c3Start : RuntimeState :=
  RuntimeState.with_host_allowlist [("trusted-host")]

def denyMsg : TransportMessage :=
  { envelope :=
      { v := 1, seq := 1, source := "evil-host",
        device_id := "microclaw-device", session_id := "boot",
        message_id := "x" }
    kind := .hostCommand
    corr_id := none
    ttl_ms := none
    issued_at := some 0
    signature := none
    nonce := none
    payload := .deviceCommand .restart [] }

def applyDeny (s : RuntimeState) : RuntimeState :=
  (s.apply_transport_message denyMsg 0).1

def c3Denied : RuntimeState :=
  applyDeny (applyDeny (applyDeny (applyDeny (applyDeny c3Start))))

def c3Locked : RuntimeState := c3Denied.safety_lockdown_check.1

def c3Hello : TransportMessage :=
  { envelope :=
      { v := 1, seq := 1, source := "trusted-host",
        device_id := "microclaw-device", session_id := "boot",
        message_id := "m1" }
    kind := .helloAck
    corr_id := none
    ttl_ms := none
    issued_at := some 0
    signature := none
    nonce := none
    payload := .raw 0 }

def c3Touch : TouchEventPayload :=
  { phase := .down, x := 180, y := 330, pointer_id := 1, pressure := none,
    raw_timestamp_ms := none }

def c10Heartbeat : TransportMessage :=
  { envelope :=
      { v := 1, seq := 1, source := "host",
        device_id := "microclaw-device", session_id := "boot",
        message_id := "hb-1" }
    kind := .heartbeat
    corr_id := none
    ttl_ms := none
    issued_at := some 10
    signature := none
    nonce := none
    payload := .raw 0 }

def c10Hello : TransportMessage :=
  { c10Heartbeat with
      kind := .helloAck
      envelope := { c10Heartbeat.envelope with message_id := "hello-1" } }

def c10State : RuntimeState :=
  { RuntimeState.new with
      safety_fail_count := 3
      offline_since_ms := some 42 }

def c2Status : DeviceStatus :=
  { wifi_ok := false, host_reachable := false, mode := some ("error"),
    scene := none, ota_state := none }

def c2WifiMsg : TransportMessage :=
  { envelope :=
      { v := 1, seq := 1, source := "host",
        device_id := "microclaw-device", session_id := "boot",
        message_id := "status-1" }
    kind := .statusSnapshot
    corr_id := none
    ttl_ms := none
    issued_at := some 0
    signature := none
    nonce := none
    payload := .status c2Status }

def busEnv2 : Envelope :=
  { v := 1, seq := 2, source := "host", device_id := "dev",
    session_id := "sess", message_id := "m2" }

def busTwo : Bus := (busWithRow.publish busEnv2).1

def c6Row1 : BusRow :=
  { id := 1, seq := 1, device_id := "dev", session_id := "sess",
    message_id := "m1", payload := busEnv1 }

/-- A queue state holding exactly two groups `g` (listed first, items
`i1 :: i2 :: qg`) and `h` (items `j :: qh`), nothing in flight. -/
def twoGroupQueue {α : Type} (g h : String) (qg qh : List (QueuedItem α))
    (i1 i2 j : QueuedItem α) (limit : Nat) (rp : RetryPolicy) :
    ExecutionQueue α :=
  { per_group := [(g, i1 :: i2 :: qg), (h, j :: qh)]
    inflight_groups := []
    inflight_limit := limit
    inflight := 0
    retry := rp }

def c7wI1 : QueuedItem String := QueuedItem.new ("t1") ("a") ("p1")

def c7wI2 : QueuedItem String := QueuedItem.new ("t2") ("a") ("p2")

def c7wJ : QueuedItem String := QueuedItem.new ("t3") ("b") ("p3")

/-! ## Claim C9 -/

/-- Claim C9: for every schedule value and every now,
`compute_next_run(ScheduleType::Once, value, now)` returns a structured
`SchedulerError` (the `InvalidScheduleValue` error with the literal
message) and never a next-run time, whatever the external cron crate
does. -/
theorem c9_once_never_recurs
    (cronParseErr : String → Option String)
    (cronAfterNext : String → Int → Option Int)
    (value : String) (now : Int) :
    compute_next_run cronParseErr cronAfterNext .once value now =
      .error (.invalidScheduleValue
        ("once schedules do not compute next run")) :=
  rfl

/-! ## Claim C5 -/

/-- Claim C5: bus publish is idempotent per `(device_id, message_id)` —
when a stored row with the envelope's `(device_id, message_id)` already
exists, `publish` returns `false` and leaves the bus (rows and `last_seq`)
unchanged. -/
theorem c5_publish_idempotent (b : Bus) (e : Envelope)
    (h : ∃ r ∈ b.rows,
      r.device_id = e.device_id ∧ r.message_id = e.message_id) :
    b.publish e = (b, false) := by
  obtain ⟨r, hr, h1, h2⟩ := h
  have hex : b.rows.any
      (fun r => r.device_id = e.device_id && r.message_id = e.message_id)
        = true :=
    List.any_eq_true.mpr ⟨r, hr, by simp [h1, h2]⟩
  unfold Bus.publish
  simp [hex]

/-- Witness for C5 at a concrete one-row bus. -/
theorem c5_publish_idempotent_witness :
    busWithRow.publish busEnv1 = (busWithRow, false) :=
  c5_publish_idempotent busWithRow busEnv1 (by decide)

/-! ## Frame lemmas for the runtime transition function -/

theorem mark_offline_with_reason_frame (s : RuntimeState) (r : String)
    (n : Nat) :
    (s.mark_offline_with_reason r n).seen_message_ids = s.seen_message_ids ∧
    (s.mark_offline_with_reason r n).last_seq = s.last_seq ∧
    (s.mark_offline_with_reason r n).safety_fail_count =
      s.safety_fail_count ∧
    (s.mark_offline_with_reason r n).in_flight = s.in_flight := by
  unfold RuntimeState.mark_offline_with_reason RuntimeState.push_diagnostic
  split <;> simp

theorem apply_status_snapshot_frame (s : RuntimeState) (st : DeviceStatus)
    (n : Nat) :
    (s.apply_status_snapshot st n).seen_message_ids = s.seen_message_ids ∧
    (s.apply_status_snapshot st n).last_seq = s.last_seq ∧
    (s.apply_status_snapshot st n).safety_fail_count =
      s.safety_fail_count ∧
    (s.apply_status_snapshot st n).in_flight = s.in_flight := by
  unfold RuntimeState.apply_status_snapshot
  split
  · refine ⟨?_, ?_, ?_, ?_⟩ <;>
      simp [mark_offline_with_reason_frame]
  · (repeat' split) <;> simp

theorem dispatch_command_frame (s : RuntimeState) (msg : TransportMessage) :
    (s.dispatch_command msg).1.seen_message_ids = s.seen_message_ids ∧
    (s.dispatch_command msg).1.last_seq = s.last_seq ∧
    (s.dispatch_command msg).1.safety_fail_count = s.safety_fail_count := by
  unfold RuntimeState.dispatch_command
  (repeat' split) <;> simp

theorem dispatch_kind_frame (s : RuntimeState) (msg : TransportMessage)
    (now : Nat) :
    (s.dispatch_kind msg now).1.seen_message_ids = s.seen_message_ids ∧
    (s.dispatch_kind msg now).1.last_seq = s.last_seq := by
  unfold RuntimeState.dispatch_kind
  (repeat' split) <;>
    simp [apply_status_snapshot_frame, dispatch_command_frame]

theorem acceptState_eq (s : RuntimeState) (msg : TransportMessage)
    (now : Nat) :
    acceptState s msg now =
      { s with
          last_seq := msg.envelope.seq,
          seen_message_ids := alistInsert msg.envelope.message_id
            msg.envelope.seq
            (if s.seen_message_ids.length > 512 then []
             else s.seen_message_ids),
          last_heartbeat_ms := some (msg.issued_at.getD now) } := rfl

theorem apply_transport_message_accepted (s : RuntimeState)
    (msg : TransportMessage) (now : Nat)
    (hA : s.is_host_allowed msg.envelope.source = true)
    (hD : s.is_duplicate_or_stale msg.envelope.seq msg.envelope.message_id
      = false) :
    s.apply_transport_message msg now =
      (acceptState s msg now).dispatch_kind msg now := by
  unfold RuntimeState.apply_transport_message
  rw [if_neg (by simp [hA]), if_neg (by simp [hD])]
  rfl

theorem apply_transport_message_rejected_replay (s : RuntimeState)
    (msg : TransportMessage) (now : Nat)
    (hA : s.is_host_allowed msg.envelope.source = true)
    (hD : s.is_duplicate_or_stale msg.envelope.seq msg.envelope.message_id
      = true) :
    s.apply_transport_message msg now =
      (s, .raiseUiState ("replay_or_duplicate_rejected")) := by
  unfold RuntimeState.apply_transport_message
  rw [if_neg (by simp [hA]), if_pos (by simp [hD])]

/-! ## Lemmas about the fresh-frame trace -/

theorem mid_inj {i j : Nat} (h : mid i = mid j) : i = j := by
  have hd := congrArg (fun s : String => s.data.length) h
  simpa [mid] using hd

theorem length_seenUpTo (n : Nat) : (seenUpTo n).length = n := by
  induction n with
  | zero => rfl
  | succ m ih => simp [seenUpTo, ih]

theorem alistFind?_seenUpTo {n k : Nat} (h : n < k) :
    alistFind? (mid k) (seenUpTo n) = none := by
  induction n with
  | zero => rfl
  | succ m ih =>
    have hne : ¬ ((mid (m + 1), m + 1).1 = mid k) := by
      intro contra
      have := mid_inj contra
      omega
    simp only [seenUpTo, alistFind?, if_neg hne]
    exact ih (by omega)

theorem stateAfter_step {n : Nat} (hn : n ≤ 512) :
    ((stateAfter n).apply_transport_message (mkMsg (n + 1)) 0).1 =
      stateAfter (n + 1) := by
  have hA : (stateAfter n).is_host_allowed (mkMsg (n + 1)).envelope.source
      = true := rfl
  have hD : (stateAfter n).is_duplicate_or_stale
      (mkMsg (n + 1)).envelope.seq (mkMsg (n + 1)).envelope.message_id
        = false := by
    unfold RuntimeState.is_duplicate_or_stale
    rw [if_neg]
    · show (alistFind? (mid (n + 1)) (stateAfter n).seen_message_ids).isSome
        = false
      rw [show (stateAfter n).seen_message_ids = seenUpTo n from rfl,
        alistFind?_seenUpTo (by omega)]
      rfl
    · show ¬ (mkMsg (n + 1)).envelope.seq ≤ (stateAfter n).last_seq
      show ¬ n + 1 ≤ n
      omega
  rw [apply_transport_message_accepted _ _ _ hA hD]
  have hkind : ((acceptState (stateAfter n) (mkMsg (n + 1)) 0).dispatch_kind
      (mkMsg (n + 1)) 0).1 = acceptState (stateAfter n) (mkMsg (n + 1)) 0 :=
    rfl
  rw [hkind, acceptState_eq]
  have hlen : ¬ ((stateAfter n).seen_message_ids.length > 512) := by
    show ¬ ((seenUpTo n).length > 512)
    rw [length_seenUpTo]
    omega
  rw [if_neg hlen]
  unfold alistInsert
  rw [show (mkMsg (n + 1)).envelope.message_id = mid (n + 1) from rfl,
    show (stateAfter n).seen_message_ids = seenUpTo n from rfl,
    alistFind?_seenUpTo (Nat.lt_succ_self n)]
  simp [stateAfter, seenUpTo, mkMsg]

theorem runUpTo_succ (n : Nat) :
    runUpTo (n + 1) =
      ((runUpTo n).apply_transport_message (mkMsg (n + 1)) 0).1 := rfl

theorem runUpTo_eq {n : Nat} (h1 : 1 ≤ n) (h513 : n ≤ 513) :
    runUpTo n = stateAfter n := by
  induction n with
  | zero => omega
  | succ m ih =>
    rw [runUpTo_succ m]
    rcases Nat.eq_zero_or_pos m with hm | hm
    · subst hm
      show (RuntimeState.new.apply_transport_message (mkMsg 1) 0).1 =
        stateAfter 1
      decide
    · rw [ih (by omega) (by omega)]
      exact stateAfter_step (by omega)

theorem runUpTo_514 :
    runUpTo 514 =
      { RuntimeState.new with
          last_seq := 514
          seen_message_ids := [(mid 514, 514)]
          last_heartbeat_ms := some 0 } := by
  have hstep : runUpTo 514 =
      ((runUpTo 513).apply_transport_message (mkMsg 514) 0).1 := by
    rw [show (514 : Nat) = 513 + 1 from rfl]
    exact runUpTo_succ 513
  rw [hstep, runUpTo_eq (by omega) (by omega)]
  have hA : (stateAfter 513).is_host_allowed (mkMsg 514).envelope.source
      = true := rfl
  have hD : (stateAfter 513).is_duplicate_or_stale
      (mkMsg 514).envelope.seq (mkMsg 514).envelope.message_id = false := by
    unfold RuntimeState.is_duplicate_or_stale
    rw [if_neg]
    · show (alistFind? (mid 514) (stateAfter 513).seen_message_ids).isSome
        = false
      rw [show (stateAfter 513).seen_message_ids = seenUpTo 513 from rfl,
        alistFind?_seenUpTo (by omega)]
      rfl
    · show ¬ (mkMsg 514).envelope.seq ≤ (stateAfter 513).last_seq
      show ¬ 514 ≤ 513
      omega
  rw [apply_transport_message_accepted _ _ _ hA hD]
  have hkind : ((acceptState (stateAfter 513) (mkMsg 514) 0).dispatch_kind
      (mkMsg 514) 0).1 = acceptState (stateAfter 513) (mkMsg 514) 0 := rfl
  rw [hkind, acceptState_eq]
  have hlen : (stateAfter 513).seen_message_ids.length > 512 := by
    show (seenUpTo 513).length > 512
    rw [length_seenUpTo]
    omega
  rw [if_pos hlen]
  simp [stateAfter, alistInsert, alistFind?, mkMsg]

theorem reachable_runUpTo (n : Nat) : Reachable (runUpTo n) := by
  induction n with
  | zero => exact Reachable.new
  | succ m ih => exact Reachable.transport (mkMsg (m + 1)) 0 ih

/-! ## Claim C1 -/

/-- Claim C1 (corrected): an accepted frame leaves `last_seq` equal to
its envelope seq; and every later call that passes the allowlist gate and
whose message id is still present in `seen_message_ids` is rejected with
`RaiseUiState("replay_or_duplicate_rejected")` and leaves the state
unchanged.  (The id of a previously accepted frame is no longer
guaranteed to be in `seen_message_ids` once the 512-overflow flush has
emptied it, which is what the counterexample exploits.) -/
theorem c1_accept_and_replay_rejection (s : RuntimeState)
    (msg : TransportMessage) (now : Nat) (s2 : RuntimeState)
    (msg2 : TransportMessage) (now2 : Nat)
    (hA : s.is_host_allowed msg.envelope.source = true)
    (hD : s.is_duplicate_or_stale msg.envelope.seq msg.envelope.message_id
      = false)
    (hA2 : s2.is_host_allowed msg2.envelope.source = true)
    (hSeen : (alistFind? msg2.envelope.message_id
      s2.seen_message_ids).isSome = true) :
    (s.apply_transport_message msg now).1.last_seq = msg.envelope.seq ∧
    s2.apply_transport_message msg2 now2 =
      (s2, .raiseUiState ("replay_or_duplicate_rejected")) := by
  constructor
  · rw [apply_transport_message_accepted s msg now hA hD,
      (dispatch_kind_frame (acceptState s msg now) msg now).2,
      acceptState_eq]
  · refine apply_transport_message_rejected_replay s2 msg2 now2 hA2 ?_
    unfold RuntimeState.is_duplicate_or_stale
    split
    · rfl
    · exact hSeen

/-- Witness for C1: the first fresh frame is accepted by a new runtime
(leaving `last_seq = 1`), and re-sending its id with a bumped seq against
the resulting state is rejected without a state change. -/
theorem c1_witness :
    (RuntimeState.new.apply_transport_message (mkMsg 1) 0).1.last_seq =
      (mkMsg 1).envelope.seq ∧
    (runUpTo 1).apply_transport_message
        { mkMsg 1 with
            envelope := { (mkMsg 1).envelope with seq := 2 } } 0 =
      (runUpTo 1, .raiseUiState ("replay_or_duplicate_rejected")) :=
  c1_accept_and_replay_rejection RuntimeState.new (mkMsg 1) 0 (runUpTo 1)
    { mkMsg 1 with envelope := { (mkMsg 1).envelope with seq := 2 } } 0
    (by decide) (by decide) (by decide) (by decide)

/-- Counterexample for C1 as stated: frame 1 (id `mid 1`) is accepted by
the fresh runtime; after 513 further accepted frames the seen-id set is
flushed, and `replayMsg` — a later call re-using the accepted id `mid 1`
with seq 515 — passes both gates again: it is processed as a fresh frame
(action `host_error`, `last_seq` moves to 515), not rejected as a
replay. -/
theorem c1_counterexample :
    replayMsg.envelope.message_id = (mkMsg 1).envelope.message_id ∧
    RuntimeState.new.is_host_allowed (mkMsg 1).envelope.source = true ∧
    RuntimeState.new.is_duplicate_or_stale (mkMsg 1).envelope.seq
      (mkMsg 1).envelope.message_id = false ∧
    (runUpTo 514).is_host_allowed replayMsg.envelope.source = true ∧
    (runUpTo 514).is_duplicate_or_stale replayMsg.envelope.seq
      replayMsg.envelope.message_id = false ∧
    ((runUpTo 514).apply_transport_message replayMsg 0).2 =
      .raiseUiState ("host_error") ∧
    ((runUpTo 514).apply_transport_message replayMsg 0).1.last_seq =
      515 := by
  refine ⟨rfl, by decide, by decide, ?_, ?_, ?_, ?_⟩ <;>
    rw [runUpTo_514] <;> decide

/-! ## Claim C4 -/

theorem alistInsert_length_le {β : Type} (k : String) (v : β)
    (l : List (String × β)) :
    (alistInsert k v l).length ≤ l.length + 1 := by
  unfold alistInsert
  split
  · simp
  · simp

theorem apply_touch_event_fst (s : RuntimeState) (ev : TouchEventPayload) :
    (s.apply_touch_event ev).1 = s := by
  unfold RuntimeState.apply_touch_event RuntimeState.process_touch
  (repeat' split) <;> rfl

theorem process_touch_fst (s : RuntimeState) (p : DisplayPoint) :
    (s.process_touch p).1 = s := by
  unfold RuntimeState.process_touch
  split <;> rfl

theorem apply_transport_message_seen_cases (s : RuntimeState)
    (msg : TransportMessage) (now : Nat) :
    (s.apply_transport_message msg now).1.seen_message_ids =
        s.seen_message_ids ∨
    (s.apply_transport_message msg now).1.seen_message_ids =
      alistInsert msg.envelope.message_id msg.envelope.seq
        (if s.seen_message_ids.length > 512 then []
         else s.seen_message_ids) := by
  unfold RuntimeState.apply_transport_message
  split
  · exact Or.inl rfl
  · split
    · exact Or.inl rfl
    · right
      have h := (dispatch_kind_frame (acceptState s msg now) msg now).1
      exact h

/-- Claim C4 (corrected): in every reachable state `seen_message_ids`
holds at most 513 ids (the check `len > 512` runs before the insert, so a
513th id can be added before the flush fires); and whenever the set
already holds more than 512 ids, tracking a new id empties the whole set
before the insert, leaving exactly the new entry. -/
theorem c4_seen_bounded (s : RuntimeState) (h : Reachable s) :
    s.seen_message_ids.length ≤ 513 ∧
    ∀ (seqv : Nat) (m : String), 512 < s.seen_message_ids.length →
      (s.track_message_id seqv m).seen_message_ids = [(m, seqv)] := by
  have htrack : ∀ (seqv : Nat) (m : String),
      512 < s.seen_message_ids.length →
      (s.track_message_id seqv m).seen_message_ids = [(m, seqv)] := by
    intro seqv m hlen
    unfold RuntimeState.track_message_id
    rw [if_pos (by omega)]
    rfl
  refine ⟨?_, htrack⟩
  clear htrack
  induction h with
  | new => decide
  | with_host_allowlist hosts => simp [RuntimeState.with_host_allowlist,
      RuntimeState.new]
  | transport msg now hr ih =>
    rcases apply_transport_message_seen_cases _ msg now with hc | hc <;>
      rw [hc]
    · exact ih
    · split
      · calc (alistInsert msg.envelope.message_id msg.envelope.seq
              ([] : List (String × Nat))).length ≤ 0 + 1 :=
            alistInsert_length_le _ _ _
          _ ≤ 513 := by omega
      · calc (alistInsert msg.envelope.message_id msg.envelope.seq
              _).length ≤ _ + 1 := alistInsert_length_le _ _ _
          _ ≤ 513 := by omega
  | touch ev hr ih => rw [apply_touch_event_fst]; exact ih
  | process p hr ih => rw [process_touch_fst]; exact ih
  | emit a now hr ih => exact ih
  | offline_stale now t hr ih =>
    unfold RuntimeState.mark_offline_if_stale
    (repeat' split) <;>
      simp [RuntimeState.mark_offline_with_reason,
        RuntimeState.push_diagnostic, ih] <;>
      (try split) <;> exact ih
  | lockdown hr ih =>
    unfold RuntimeState.safety_lockdown_check
    (repeat' split) <;> exact ih
  | ota ok r hr ih =>
    unfold RuntimeState.mark_ota_complete
    split <;> exact ih
  | offline_reason r now hr ih =>
    unfold RuntimeState.mark_offline_with_reason
      RuntimeState.push_diagnostic
    split <;> exact ih
  | error_reason r hr ih => exact ih

/-- Witness for C4 at the reachable 513-id state `runUpTo 513`: the bound
holds, and tracking a fresh id from there empties the set first. -/
theorem c4_witness :
    (runUpTo 513).seen_message_ids.length ≤ 513 ∧
    ((runUpTo 513).track_message_id 999 (mid 999)).seen_message_ids =
      [(mid 999, 999)] := by
  have h := c4_seen_bounded (runUpTo 513) (reachable_runUpTo 513)
  refine ⟨h.1, h.2 999 (mid 999) ?_⟩
  rw [runUpTo_eq (by omega) (by omega)]
  show 512 < (seenUpTo 513).length
  rw [length_seenUpTo]
  omega

/-- Counterexample for C4 as stated: `runUpTo 513` is reachable from
`RuntimeState::new()` by 513 accepted frames, and its
`seen_message_ids` holds 513 ids — more than the claimed 512 bound. -/
theorem c4_counterexample :
    Reachable (runUpTo 513) ∧
    512 < (runUpTo 513).seen_message_ids.length := by
  refine ⟨reachable_runUpTo 513, ?_⟩
  rw [runUpTo_eq (by omega) (by omega)]
  show 512 < (seenUpTo 513).length
  rw [length_seenUpTo]
  omega

/-! ## Claim C3 -/

/-- Claim C3 (corrected): once `mode` is `SafeMode`,
`safety_lockdown_check` is a no-op returning `false` (it never re-fires
or exits SafeMode) and `apply_touch_event` never changes the state at
all; however `apply_transport_message` (e.g. an accepted HelloAck or
Heartbeat) and `mark_offline_if_stale` can move `mode` out of SafeMode,
so SafeMode is not sticky against those operations. -/
theorem c3_safe_mode_limited_stickiness (s : RuntimeState) (reason : String)
    (h : s.mode = .safeMode reason) :
    s.safety_lockdown_check = (s, false) ∧
    ∀ ev : TouchEventPayload, (s.apply_touch_event ev).1 = s := by
  constructor
  · unfold RuntimeState.safety_lockdown_check
    rw [h]
  · intro ev
    unfold RuntimeState.apply_touch_event RuntimeState.process_touch
    cases ev.phase <;>
      first
        | rfl
        | (cases hc : clamp_and_validate_touch ev.x ev.y <;>
            simp only [hc] <;> (try split) <;> rfl)

/-- Witness for C3 at the concrete locked-down state `c3Locked`. -/
theorem c3_witness :
    c3Locked.safety_lockdown_check = (c3Locked, false) ∧
    (c3Locked.apply_touch_event c3Touch).1 = c3Locked :=
  ⟨(c3_safe_mode_limited_stickiness c3Locked
      ("safety_retries_exhausted_entering_safe_mode") (by decide)).1,
    (c3_safe_mode_limited_stickiness c3Locked
      ("safety_retries_exhausted_entering_safe_mode") (by decide)).2
      c3Touch⟩

/-- Counterexample for C3 as stated: after five denied frames,
`safety_lockdown_check` enters SafeMode, and a subsequent accepted
HelloAck moves `mode` to `Connected` — `apply_transport_message` exits
SafeMode without any external reset. -/
theorem c3_counterexample :
    c3Denied.safety_lockdown_check.2 = true ∧
    c3Locked.mode =
      .safeMode ("safety_retries_exhausted_entering_safe_mode") ∧
    (c3Locked.apply_transport_message c3Hello 0).1.mode = .connected := by
  decide

/-! ## Claim C10 -/

/-- Claim C10: an accepted Heartbeat sets `mode = Connected` and returns
`RuntimeAction::None` while leaving `safety_fail_count` and
`offline_since_ms` exactly as they were; an accepted HelloAck, in
contrast, resets `safety_fail_count` to 0 and `offline_since_ms` to
`None`. -/
theorem c10_heartbeat_frame_effect (s : RuntimeState)
    (msg : TransportMessage) (now : Nat)
    (hA : s.is_host_allowed msg.envelope.source = true)
    (hD : s.is_duplicate_or_stale msg.envelope.seq msg.envelope.message_id
      = false) :
    (msg.kind = .heartbeat →
      (s.apply_transport_message msg now).1.mode = .connected ∧
      (s.apply_transport_message msg now).2 = RuntimeAction.none ∧
      (s.apply_transport_message msg now).1.safety_fail_count =
        s.safety_fail_count ∧
      (s.apply_transport_message msg now).1.offline_since_ms =
        s.offline_since_ms) ∧
    (msg.kind = .helloAck →
      (s.apply_transport_message msg now).1.mode = .connected ∧
      (s.apply_transport_message msg now).2 =
        .raiseUiState ("connected") ∧
      (s.apply_transport_message msg now).1.safety_fail_count = 0 ∧
      (s.apply_transport_message msg now).1.offline_since_ms = none) := by
  rw [apply_transport_message_accepted s msg now hA hD]
  constructor <;> intro hk <;>
    simp [RuntimeState.dispatch_kind, hk, acceptState_eq]

/-- Witness for C10 at a state with nonzero `safety_fail_count` and a set
`offline_since_ms`, once with a Heartbeat and once with a HelloAck. -/
theorem c10_witness :
    ((c10State.apply_transport_message c10Heartbeat 0).1.mode =
        .connected ∧
      (c10State.apply_transport_message c10Heartbeat 0).2 =
        RuntimeAction.none ∧
      (c10State.apply_transport_message c10Heartbeat 0).1.safety_fail_count
        = c10State.safety_fail_count ∧
      (c10State.apply_transport_message c10Heartbeat 0).1.offline_since_ms
        = c10State.offline_since_ms) ∧
    ((c10State.apply_transport_message c10Hello 0).1.mode = .connected ∧
      (c10State.apply_transport_message c10Hello 0).2 =
        .raiseUiState ("connected") ∧
      (c10State.apply_transport_message c10Hello 0).1.safety_fail_count
        = 0 ∧
      (c10State.apply_transport_message c10Hello 0).1.offline_since_ms
        = none) :=
  ⟨(c10_heartbeat_frame_effect c10State c10Heartbeat 0 (by decide)
      (by decide)).1 (by decide),
    (c10_heartbeat_frame_effect c10State c10Hello 0 (by decide)
      (by decide)).2 (by decide)⟩

/-! ## Claim C2 -/

/-- Claim C2 (corrected): for every accepted StatusSnapshot/StatusDelta
whose payload parses to a `DeviceStatus` with `wifi_ok = false`, the
handler stores the status, calls
`mark_offline_with_reason("status_wifi_not_ok", now)` and skips the
`status.mode` string mapping, so afterwards `mode` is `Offline`, the
stored status is the parsed one, and (when the state was not already
Offline) a `status_wifi_not_ok` diagnostic has been pushed; but the
Status handler then unconditionally clears `offline_since_ms` to `None`
before returning `RaiseUiState("status_updated")`, so `offline_since_ms`
does not hold the time passed to `mark_offline_with_reason`. -/
theorem c2_status_wifi_not_ok (s : RuntimeState) (msg : TransportMessage)
    (status : DeviceStatus) (now : Nat)
    (hA : s.is_host_allowed msg.envelope.source = true)
    (hD : s.is_duplicate_or_stale msg.envelope.seq msg.envelope.message_id
      = false)
    (hkind : msg.kind = .statusSnapshot ∨ msg.kind = .statusDelta)
    (hparse : msg.as_status_snapshot = some status)
    (hwifi : status.wifi_ok = false) :
    (s.apply_transport_message msg now).1.mode = .offline ∧
    (s.apply_transport_message msg now).1.offline_since_ms = none ∧
    (s.apply_transport_message msg now).1.last_status = status ∧
    (¬ s.mode = .offline →
      (s.apply_transport_message msg now).1.diagnostics =
        trim_diagnostics (s.diagnostics ++ [("status_wifi_not_ok")])) ∧
    (s.apply_transport_message msg now).2 =
      .raiseUiState ("status_updated") := by
  rw [apply_transport_message_accepted s msg now hA hD]
  rcases hkind with hk | hk <;>
    (simp only [RuntimeState.dispatch_kind, hk, hparse]
     unfold RuntimeState.apply_status_snapshot
       RuntimeState.mark_offline_with_reason RuntimeState.push_diagnostic
     by_cases hoff : s.mode = .offline <;>
       simp [acceptState_eq, hoff, hwifi])

/-- Witness for C2: a fresh runtime accepting a wifi-down snapshot at
time 7. -/
theorem c2_witness :
    (RuntimeState.new.apply_transport_message c2WifiMsg 7).1.mode =
      .offline ∧
    (RuntimeState.new.apply_transport_message c2WifiMsg 7).1.offline_since_ms
      = none ∧
    (RuntimeState.new.apply_transport_message c2WifiMsg 7).1.last_status =
      c2Status ∧
    (RuntimeState.new.apply_transport_message c2WifiMsg 7).1.diagnostics =
      trim_diagnostics ([] ++ [("status_wifi_not_ok")]) ∧
    (RuntimeState.new.apply_transport_message c2WifiMsg 7).2 =
      .raiseUiState ("status_updated") := by
  have h := c2_status_wifi_not_ok RuntimeState.new c2WifiMsg c2Status 7
    (by decide) (by decide) (Or.inl (by decide)) (by decide) (by decide)
  exact ⟨h.1, h.2.1, h.2.2.1, h.2.2.2.1 (by decide), h.2.2.2.2⟩

/-- Counterexample for C2 as stated: the wifi-down snapshot is accepted
by a fresh runtime at time 7 and `mark_offline_with_reason` runs (the
diagnostic is pushed and mode ends Offline, not the Error the status
string maps to), yet afterwards `offline_since_ms` is `None`, not the
time 7 that was passed to the call. -/
theorem c2_counterexample :
    RuntimeState.new.is_host_allowed c2WifiMsg.envelope.source = true ∧
    RuntimeState.new.is_duplicate_or_stale c2WifiMsg.envelope.seq
      c2WifiMsg.envelope.message_id = false ∧
    (RuntimeState.new.apply_transport_message c2WifiMsg 7).1.mode =
      .offline ∧
    (RuntimeState.new.apply_transport_message c2WifiMsg 7).1.diagnostics =
      [("status_wifi_not_ok")] ∧
    ¬ (RuntimeState.new.apply_transport_message c2WifiMsg 7).1.offline_since_ms
      = some 7 := by decide

/-! ## Claim C6 -/

/-- Claim C6: for every bus log and every `x`, `replay_from_seq(x)`
returns exactly (as a multiset) the payload envelopes of the stored rows
whose stored seq is strictly greater than `x`, with the selected rows
sorted ascending by `(seq, id)`; replay is a pure function of the log, so
it is deterministic. -/
theorem c6_replay_from_seq_exact (b : Bus) (x : Nat) :
    (b.replay_from_seq x).Perm
      ((b.rows.filter (fun r => x < r.seq)).map (fun r => r.payload)) ∧
    List.Sorted rowLe (b.replay_rows x) ∧
    ∀ r ∈ b.replay_rows x, x < r.seq := by
  refine ⟨(List.perm_insertionSort rowLe _).map _,
    List.sorted_insertionSort rowLe _, ?_⟩
  intro r hr
  have hmem : r ∈ b.rows.filter (fun r => x < r.seq) :=
    (List.perm_insertionSort rowLe _).mem_iff.mp hr
  exact of_decide_eq_true (List.mem_filter.mp hmem).2

/-- Witness for C6 at a concrete two-row bus. -/
theorem c6_witness :
    (busTwo.replay_from_seq 0).Perm
      ((busTwo.rows.filter (fun r => 0 < r.seq)).map (fun r => r.payload)) ∧
    List.Sorted rowLe (busTwo.replay_rows 0) ∧
    0 < c6Row1.seq :=
  ⟨(c6_replay_from_seq_exact busTwo 0).1,
    (c6_replay_from_seq_exact busTwo 0).2.1,
    (c6_replay_from_seq_exact busTwo 0).2.2 c6Row1 (by decide)⟩

/-! ## Claim C7 -/

/-- Claim C7 (corrected): group iteration in `next_ready` restarts from
the first group key on every call, so it does lock onto the earlier
group: in a queue with two groups `g` (listed first, holding ready items
`i1, i2, …`) and `h` (holding a ready head), with nothing in flight and a
positive in-flight limit, `next_ready` returns `i1`, and after
`complete(i1', ok=true)` the following `next_ready` returns `i2` of `g`
again — `h`'s head is returned only once `g` is exhausted or not ready. -/
theorem c7_next_ready_locks_onto_first_group {α : Type} (g h : String)
    (qg qh : List (QueuedItem α)) (i1 i2 j : QueuedItem α)
    (limit now : Nat) (rp : RetryPolicy)
    (hgh : g ≠ h) (hlim : 1 ≤ limit)
    (h1 : i1.ready_at_ms ≤ now) (h2 : i2.ready_at_ms ≤ now)
    (hg1 : i1.group = g) :
    ((twoGroupQueue g h qg qh i1 i2 j limit rp).next_ready now).2 =
      some { i1 with attempts := i1.attempts + 1 } ∧
    (((((twoGroupQueue g h qg qh i1 i2 j limit rp).next_ready
          now).1).complete
          { i1 with attempts := i1.attempts + 1 } true now).next_ready
          now).2 =
      some { i2 with attempts := i2.attempts + 1 } := by
  have hlt : ¬ (0 ≥ limit) := by omega
  simp [twoGroupQueue, ExecutionQueue.next_ready, nextReadyLoop,
    ExecutionQueue.complete, setInsert, hg1, h1, h2, hlt,
    List.erase_cons_head]

/-- Witness for C7 at a two-group queue of string payloads. -/
theorem c7_witness :
    ((twoGroupQueue ("a") ("b") [] [] c7wI1 c7wI2 c7wJ 2
        { max_attempts := 2, backoff_ms := 1000 }).next_ready 0).2 =
      some { c7wI1 with attempts := c7wI1.attempts + 1 } ∧
    (((((twoGroupQueue ("a") ("b") [] [] c7wI1 c7wI2 c7wJ 2
        { max_attempts := 2, backoff_ms := 1000 }).next_ready
          0).1).complete
        { c7wI1 with attempts := c7wI1.attempts + 1 } true 0).next_ready
        0).2 =
      some { c7wI2 with attempts := c7wI2.attempts + 1 } :=
  c7_next_ready_locks_onto_first_group ("a") ("b") [] [] c7wI1 c7wI2 c7wJ
    2 0 { max_attempts := 2, backoff_ms := 1000 }
    (by decide) (by decide) (by decide) (by decide) (by decide)

/-- Counterexample for C7 as stated: in the queue `c7q` (groups `a` with
two ready items and `b` with one, nothing in flight, limit 2),
`next_ready(0)` returns t1 of group `a`; after completing it
successfully, the following `next_ready(0)` returns t2 of group `a`
again, not an item of group `b`. -/
theorem c7_counterexample :
    (c7q.next_ready 0).2 = some c7i1 ∧
    ((((c7q.next_ready 0).1).complete c7i1 true 0).next_ready 0).2 =
        some c7i2 ∧
    c7i2.group = ("a") ∧ ¬ c7i2.group = ("b") := by decide

/-! ## Claim C8 -/

/-- Claim C8 (corrected): both command builders insert the token
`--network=none` exactly when `egress_hosts` is empty; consequently, for
every `RunSpec` none of whose user-supplied strings (rendered mount args,
rendered `K=V` env args, image, command words) happens to be the literal
token itself, the built argument vector contains the token iff
`egress_hosts` is empty. -/
theorem c8_network_none_iff_no_egress (spec : RunSpec)
    (hmd : ("--network=none") ∉ spec.mounts.map Mount.to_docker_arg)
    (hma : ("--network=none") ∉ spec.mounts.map Mount.to_apple_arg)
    (henv : ("--network=none") ∉
      spec.env.map (fun kv => kv.1 ++ "=" ++ kv.2))
    (him : spec.image ≠ ("--network=none"))
    (hcmd : ("--network=none") ∉ spec.command) :
    (("--network=none") ∈ DockerRunner.build_command spec ↔
      spec.egress_hosts = []) ∧
    (("--network=none") ∈ AppleContainerRunner.build_command spec ↔
      spec.egress_hosts = []) := by
  constructor
  · unfold DockerRunner.build_command RunSpec.network_disabled
    cases hE : spec.egress_hosts with
    | nil => simp
    | cons a tl =>
      simp only [hE, List.isEmpty_cons, Bool.false_eq_true, if_false,
        List.append_nil, List.nil_append, List.cons_ne_nil, iff_false]
      intro hmem
      simp only [List.mem_append, List.mem_cons, List.not_mem_nil,
        List.mem_flatMap, List.mem_singleton, or_false] at hmem
      rcases hmem with ((((h | h | h) | h) | h) | h) | h
      · exact absurd h (by decide)
      · exact absurd h (by decide)
      · exact absurd h (by decide)
      · obtain ⟨m, hm, hx⟩ := h
        rcases hx with hx | hx
        · exact absurd hx (by decide)
        · exact hmd (List.mem_map.mpr ⟨m, hm, hx.symm⟩)
      · obtain ⟨kv, hkv, hx⟩ := h
        rcases hx with hx | hx
        · exact absurd hx (by decide)
        · exact henv (List.mem_map.mpr ⟨kv, hkv, hx.symm⟩)
      · exact him h.symm
      · exact hcmd h
  · unfold AppleContainerRunner.build_command RunSpec.network_disabled
    cases hE : spec.egress_hosts with
    | nil => simp
    | cons a tl =>
      simp only [hE, List.isEmpty_cons, Bool.false_eq_true, if_false,
        List.append_nil, List.nil_append, List.cons_ne_nil, iff_false]
      intro hmem
      simp only [List.mem_append, List.mem_cons, List.not_mem_nil,
        List.mem_flatMap, List.mem_singleton, or_false] at hmem
      rcases hmem with ((((h | h | h) | h) | h) | h) | h
      · exact absurd h (by decide)
      · exact absurd h (by decide)
      · exact absurd h (by decide)
      · obtain ⟨m, hm, hx⟩ := h
        rcases hx with hx | hx
        · exact absurd hx (by decide)
        · exact hma (List.mem_map.mpr ⟨m, hm, hx.symm⟩)
      · obtain ⟨kv, hkv, hx⟩ := h
        rcases hx with hx | hx
        · exact absurd hx (by decide)
        · exact henv (List.mem_map.mpr ⟨kv, hkv, hx.symm⟩)
      · exact him h.symm
      · exact hcmd h

/-- Witness for C8 at a concrete spec with a mount, an env pair and no
egress hosts. -/
theorem c8_witness :
    (("--network=none") ∈ DockerRunner.build_command c8CleanSpec ↔
      c8CleanSpec.egress_hosts = []) ∧
    (("--network=none") ∈ AppleContainerRunner.build_command c8CleanSpec ↔
      c8CleanSpec.egress_hosts = []) :=
  c8_network_none_iff_no_egress c8CleanSpec (by decide) (by decide)
    (by decide) (by decide) (by decide)

/-- Counterexample for C8 as stated: `c8Spec` has a non-empty
`egress_hosts`, yet its env pair `("--network", "none")` renders as the
literal token `--network=none`, which therefore appears in both built
argument vectors. -/
theorem c8_counterexample :
    c8Spec.egress_hosts ≠ [] ∧
    ("--network=none") ∈ DockerRunner.build_command c8Spec ∧
    ("--network=none") ∈ AppleContainerRunner.build_command c8Spec := by
  decide

end Microclaw
